import Mathlib

/-!
Verification of the frizz agent step / tool-dispatch layer.

This file gives a shallow embedding of the code under scrutiny:

* `src/frizz/_internal/tools.py` - the `Tool` descriptor class;
* `src/frizz/_internal/patched_tools.py` - `patched_llm_tool_call`, the
  message-rendering loop, the mock-response fallback and the response
  post-processing;
* `src/examples/patched_agent_example.py` - the `PatchedAgent` class and its
  `step` method.

External collaborators (the aikernel `Conversation`, the router, the `json`
library, pydantic validation) are embedded at their interface boundary:
oracles are passed as function parameters, validation is carried as data on
the embedded pydantic-model type, and `json.loads` is embedded as an
executable parser over an inductive `Json` value type.

Python exceptions are embedded as an explicit error type `PyError`; a Python
function that can raise is embedded as a function into `Except PyError`.
Since several spec-level error kinds (HandlerExecutionError,
UnknownToolSelectedError, DuplicateToolNameError, InvalidToolSignatureError)
do not occur anywhere in the source, `PyError` also carries constructors for
them so that theorems can state their absence.
-/

/-- Embedded Python exception values.  The first group are the litellm
exceptions caught in patched_tools.py; the second group are the aikernel
error classes raised there; `frizzError` is `frizz.errors.FrizzError`
(modelled from the spec and its use sites: a generic exception carrying a
message); `typeError` and `indexError` are the Python builtins; `other`
stands for any further exception a handler may raise.  The final group are
the spec-taxonomy error kinds that never occur in the source; they exist so
that theorems can state that the code does not produce them. -/
inductive PyError where
  | serviceUnavailable
  | rateLimitError
  | modelUnavailableError
  | rateLimitExceededError
  | noResponseError
  | toolCallError
  | frizzError (msg : String)
  | typeError (msg : String)
  | indexError
  | other (msg : String)
  | handlerExecutionError (msg : String)
  | unknownToolSelectedError (msg : String)
  | invalidToolArgumentsError (msg : String)
  | duplicateToolNameError (msg : String)
  | invalidToolSignatureError (msg : String)
deriving DecidableEq

/-- Python `str(error)`: the message text of the exception, used when the
step interpolates an exception into an f-string. -/
def PyError.str : PyError → String
  | .serviceUnavailable => "ServiceUnavailableError"
  | .rateLimitError => "RateLimitError"
  | .modelUnavailableError => "ModelUnavailableError"
  | .rateLimitExceededError => "RateLimitExceededError"
  | .noResponseError => "NoResponseError"
  | .toolCallError => "ToolCallError"
  | .frizzError m => m
  | .typeError m => m
  | .indexError => "IndexError"
  | .other m => m
  | .handlerExecutionError m => m
  | .unknownToolSelectedError m => m
  | .invalidToolArgumentsError m => m
  | .duplicateToolNameError m => m
  | .invalidToolSignatureError m => m

/-- True exactly on the spec-level HandlerExecutionError kind. -/
def PyError.isHandlerExecutionError : PyError → Bool
  | .handlerExecutionError _ => true
  | _ => false

/-- Parsed JSON values, the result type of the embedded `json.loads`. -/
inductive Json where
  | null
  | bool (b : Bool)
  | num (n : Int)
  | str (s : String)
  | arr (items : List Json)
  | obj (fields : List (String × Json))

/-- The opening brace character. -/
def lbrace : Char := Char.ofNat 123

/-- The closing brace character. -/
def rbrace : Char := Char.ofNat 125

/-- Skip JSON whitespace. -/
def skipWs : List Char → List Char
  | [] => []
  | c :: cs => if c = ' ' || c = '\t' || c = '\n' || c = '\r' then skipWs cs else c :: cs

/-- Parse the body of a JSON string after the opening quote, up to the
closing quote.  Escapes are not needed by any string this development
evaluates. -/
def parseStringBody : List Char → Option (String × List Char)
  | [] => none
  | c :: cs =>
    if c = '"' then some ("", cs)
    else
      match parseStringBody cs with
      | some (s, rest) => some (String.mk (c :: s.data), rest)
      | none => none

/-- Split a leading run of decimal digits from the input. -/
def takeDigits : List Char → (List Char × List Char)
  | [] => ([], [])
  | c :: cs =>
    if c.isDigit then
      let (ds, rest) := takeDigits cs
      (c :: ds, rest)
    else ([], c :: cs)

/-- Decimal value of a digit run. -/
def digitsToNat (ds : List Char) : Nat :=
  ds.foldl (fun n c => n * 10 + (c.toNat - 48)) 0

/-- Parse a JSON integer (optional leading minus, then digits). -/
def parseNumber : List Char → Option (Int × List Char)
  | [] => none
  | c :: cs =>
    if c = '-' then
      match takeDigits cs with
      | ([], _) => none
      | (ds, rest) => some (-(digitsToNat ds : Int), rest)
    else
      match takeDigits (c :: cs) with
      | ([], _) => none
      | (ds, rest) => some ((digitsToNat ds : Int), rest)

mutual

/-- Parse one JSON value.  The fuel bounds recursion depth; `Json.loads`
supplies fuel larger than the input length, which is ample. -/
def parseVal : Nat → List Char → Option (Json × List Char)
  | 0, _ => none
  | fuel + 1, cs =>
    match skipWs cs with
    | [] => none
    | c :: rest =>
      if c = '"' then
        match parseStringBody rest with
        | some (s, r) => some (.str s, r)
        | none => none
      else if c = lbrace then
        match skipWs rest with
        | [] => none
        | d :: r2 =>
          if d = rbrace then some (.obj [], r2)
          else
            match parseMembers fuel (d :: r2) with
            | some (ms, r3) => some (.obj ms, r3)
            | none => none
      else if c = '[' then
        match skipWs rest with
        | [] => none
        | d :: r2 =>
          if d = ']' then some (.arr [], r2)
          else
            match parseItems fuel (d :: r2) with
            | some (xs, r3) => some (.arr xs, r3)
            | none => none
      else
        match c :: rest with
        | 't' :: 'r' :: 'u' :: 'e' :: r => some (.bool true, r)
        | 'f' :: 'a' :: 'l' :: 's' :: 'e' :: r => some (.bool false, r)
        | 'n' :: 'u' :: 'l' :: 'l' :: r => some (.null, r)
        | l =>
          match parseNumber l with
          | some (n, r) => some (.num n, r)
          | none => none

/-- Parse the members of a JSON object after the opening brace, including the
closing brace. -/
def parseMembers : Nat → List Char → Option (List (String × Json) × List Char)
  | 0, _ => none
  | fuel + 1, cs =>
    match skipWs cs with
    | [] => none
    | c :: rest =>
      if c = '"' then
        match parseStringBody rest with
        | some (k, r1) =>
          match skipWs r1 with
          | ':' :: r2 =>
            match parseVal fuel r2 with
            | some (v, r3) =>
              match skipWs r3 with
              | ',' :: r4 =>
                (match parseMembers fuel r4 with
                 | some (ms, r5) => some ((k, v) :: ms, r5)
                 | none => none)
              | d :: r4 => if d = rbrace then some ([(k, v)], r4) else none
              | [] => none
            | none => none
          | _ => none
        | none => none
      else none

/-- Parse the items of a JSON array after the opening bracket, including the
closing bracket. -/
def parseItems : Nat → List Char → Option (List Json × List Char)
  | 0, _ => none
  | fuel + 1, cs =>
    match parseVal fuel cs with
    | some (v, r1) =>
      match skipWs r1 with
      | ',' :: r2 =>
        (match parseItems fuel r2 with
         | some (xs, r3) => some (v :: xs, r3)
         | none => none)
      | ']' :: r2 => some ([v], r2)
      | _ => none
    | none => none

end

/-- Embedded `json.loads`: parse a complete JSON document, rejecting
trailing garbage.  Returns `none` where Python raises `JSONDecodeError`. -/
def Json.loads (s : String) : Option Json :=
  match parseVal (s.length + 1) s.data with
  | some (v, rest) =>
    match skipWs rest with
    | [] => some v
    | _ => none
  | none => none

/-!
## Messages and rendering (patched_tools.py, lines 58-65)

The aikernel message classes are embedded at their interface boundary: the
provider-agnostic record a message renders to is carried as data.  A
`LLMToolMessage` renders through `render_call_and_response()` to a pair of
records (the tool-call record and the tool-response record); the other
message kinds render through `render()` to a single record.
-/

/-- A conversation message as consumed by `patched_llm_tool_call`, carrying
the record(s) its external aikernel renderer produces. -/
inductive LLMMessage (R : Type) where
  | user (rendered : R)
  | assistant (rendered : R)
  | system (rendered : R)
  | tool (callRecord : R) (responseRecord : R)

/-- The rendering loop of `patched_llm_tool_call` (patched_tools.py lines
58-65): every `LLMToolMessage` contributes its invocation record immediately
followed by its response record; every other message contributes its single
rendered record.  A pure projection of the message list. -/
def renderMessages {R : Type} : List (LLMMessage R) → List R
  | [] => []
  | .tool c r :: rest => c :: r :: renderMessages rest
  | .user x :: rest => x :: renderMessages rest
  | .assistant x :: rest => x :: renderMessages rest
  | .system x :: rest => x :: renderMessages rest

/-- `aikernel LLMTool`: a tool advertisement with a name, a description and
a parameters schema of type `P`. -/
structure LLMTool (P : Type) where
  name : String
  description : String
  parameters : P

/-- `tool_choice` argument of the tool-call entry points. -/
inductive ToolChoice where
  | auto
  | required
deriving DecidableEq

/-- `aikernel LLMResponseUsage`. -/
structure LLMResponseUsage where
  input_tokens : Nat
  output_tokens : Nat

/-- `aikernel LLMResponseToolCall`: the decision returned to the caller,
with the arguments already decoded from JSON. -/
structure LLMResponseToolCall where
  id : String
  tool_name : String
  arguments : Json

/-- `aikernel LLMAutoToolResponse`. -/
structure LLMAutoToolResponse where
  tool_call : Option LLMResponseToolCall
  text : Option String
  usage : LLMResponseUsage

/-- `aikernel LLMRequiredToolResponse`. -/
structure LLMRequiredToolResponse where
  tool_call : LLMResponseToolCall
  usage : LLMResponseUsage

/-- Return type of `patched_llm_tool_call`
(`LLMAutoToolResponse | LLMRequiredToolResponse`). -/
inductive ToolCallResponse where
  | auto (r : LLMAutoToolResponse)
  | required (r : LLMRequiredToolResponse)

/-!
## Router wire types (patched_tools.py)

The `ModelResponse` structures mirror the fields the source reads.  The
identification fields (`id`, `created`, `model`, `object`,
`system_fingerprint`, `finish_reason`, `index`, `role`, `type`) are never
read by `patched_llm_tool_call` and are omitted from the embedding.
-/

/-- `ModelResponseChoiceToolCallFunction`: a tool name and a raw JSON
argument string. -/
structure ModelResponseChoiceToolCallFunction where
  name : String
  arguments : String

/-- `ModelResponseChoiceToolCall`. -/
structure ModelResponseChoiceToolCall where
  id : String
  function : ModelResponseChoiceToolCallFunction

/-- `ModelResponseChoiceMessage`: assistant content and the optional list of
tool calls. -/
structure ModelResponseChoiceMessage where
  content : Option String
  tool_calls : Option (List ModelResponseChoiceToolCall)

/-- `ModelResponseChoice`. -/
structure ModelResponseChoice where
  message : ModelResponseChoiceMessage

/-- `ModelResponseUsage`. -/
structure ModelResponseUsage where
  prompt_tokens : Nat
  completion_tokens : Nat

/-- `ModelResponse`: the router completion as read by the source. -/
structure ModelResponse where
  choices : List ModelResponseChoice
  usage : ModelResponseUsage

/-- The literal argument string of the fabricated fallback tool call
(patched_tools.py line 102). -/
def mockArgumentsString : String :=
  "\x7b\"operation\":\"multiply\", \"a\":125, \"b\":37\x7d"

/-- The mock response fabricated inside the inner `except Exception` handler
of `patched_llm_tool_call` (patched_tools.py lines 79-111).  It has one
choice whose single tool call names `tools[0]` with the fixed argument
string; `tools[0]` on an empty list is a Python `IndexError`, which
propagates out of the handler. -/
def mockResponse {P : Type} (tools : List (LLMTool P)) : Except PyError ModelResponse :=
  match tools with
  | [] => .error .indexError
  | t :: _ =>
    .ok
      { choices :=
          [{ message :=
              { content := some "I\x27ll calculate that for you.",
                tool_calls := some
                  [{ id := "mock-tool-call",
                     function := { name := t.name, arguments := mockArgumentsString } }] } }],
        usage := { prompt_tokens := 20, completion_tokens := 10 } }

/-- The response post-processing of `patched_llm_tool_call`
(patched_tools.py lines 117-143): empty `choices` raises `NoResponseError`;
no tool calls returns the free text (auto) or raises `ToolCallError`
(required); otherwise only the first tool call is consulted - its name must
match a supplied tool (else `ToolCallError`) and its argument string must
decode as JSON (else `ToolCallError`). -/
def processResponse {P : Type} (tools : List (LLMTool P)) (tool_choice : ToolChoice)
    (response : ModelResponse) : Except PyError ToolCallResponse :=
  match response.choices with
  | [] => .error .noResponseError
  | choice :: _ =>
    let usage : LLMResponseUsage :=
      { input_tokens := response.usage.prompt_tokens,
        output_tokens := response.usage.completion_tokens }
    match choice.message.tool_calls.getD [] with
    | [] =>
      match tool_choice with
      | .required => .error .toolCallError
      | .auto => .ok (.auto { tool_call := none, text := choice.message.content, usage })
    | tc :: _ =>
      match tools.find? (fun tool => tool.name == tc.function.name) with
      | none => .error .toolCallError
      | some chosen =>
        match Json.loads tc.function.arguments with
        | none => .error .toolCallError
        | some args =>
          let tool_call : LLMResponseToolCall :=
            { id := tc.id, tool_name := chosen.name, arguments := args }
          match tool_choice with
          | .required => .ok (.required { tool_call, usage })
          | .auto => .ok (.auto { tool_call := some tool_call, text := none, usage })

/-- `patched_llm_tool_call` (patched_tools.py lines 49-143).  The external
router is the `acomplete` parameter, applied to the rendered messages, the
tools and the tool choice.  The inner `except Exception` (lines 75-111)
replaces ANY `acomplete` failure with `mockResponse`; the outer handlers
(lines 112-115) translate `ServiceUnavailableError` and `RateLimitError`
escaping the inner block - which can no longer happen - and are kept here
exactly as in the source. -/
def patched_llm_tool_call {P R : Type}
    (messages : List (LLMMessage R))
    (tools : List (LLMTool P))
    (tool_choice : ToolChoice)
    (acomplete : List R → List (LLMTool P) → ToolChoice → Except PyError ModelResponse) :
    Except PyError ToolCallResponse :=
  let rendered_messages := renderMessages messages
  let attempt : Except PyError ModelResponse :=
    match acomplete rendered_messages tools tool_choice with
    | .ok r => .ok r
    | .error _ => mockResponse tools
  let outcome : Except PyError ModelResponse :=
    match attempt with
    | .error .serviceUnavailable => .error .modelUnavailableError
    | .error .rateLimitError => .error .rateLimitExceededError
    | r => r
  match outcome with
  | .error e => .error e
  | .ok response => processResponse tools tool_choice response

/-!
## The Tool descriptor (src/frizz/_internal/tools.py)

A pydantic model class (a Python type object) is embedded as `PydModel`: its
name together with its `model_validate` behaviour, which turns a decoded
JSON value into a validated parameters value or raises.  A handler function
is embedded as `IToolFn`: its `__name__`, its `__doc__`, the entry that
`get_type_hints` resolves for its `parameters` parameter, and its call
behaviour.
-/

/-- A pydantic model type object: `model_validate` is the external pydantic
validation, carried as data. -/
structure PydModel (Params : Type) where
  name : String
  model_validate : Json → Except PyError Params

/-- An embedded handler function (the `IToolFn` protocol of tools.py). -/
structure IToolFn (Ctx Params Ret : Type) where
  name : String
  doc : Option String
  paramsHint : Option (PydModel Params)
  run : Ctx → Params → Except PyError Ret

/-- The `Tool` class of tools.py: it wraps a handler function. -/
structure Tool (Ctx Params Ret : Type) where
  fn : IToolFn Ctx Params Ret

/-- `Tool.__init__` (tools.py lines 14-15): it only stores the handler and
can never fail - in particular no signature check happens here. -/
def Tool.init {Ctx Params Ret : Type} (fn : IToolFn Ctx Params Ret) :
    Except PyError (Tool Ctx Params Ret) :=
  .ok ⟨fn⟩

/-- `Tool.name` (tools.py lines 17-19): the handler `__name__`. -/
def Tool.name {Ctx Params Ret : Type} (t : Tool Ctx Params Ret) : String :=
  t.fn.name

/-- `Tool.description` (tools.py lines 21-23): the handler `__doc__`, or the
empty string when absent. -/
def Tool.description {Ctx Params Ret : Type} (t : Tool Ctx Params Ret) : String :=
  t.fn.doc.getD ""

/-- The message of the `TypeError` raised by `Tool.parameters_model`. -/
def invalidSignatureMessage : String :=
  "Invalid type signature for Tool; `use` method must have a single `parameters` parameter with a Pydantic model type"

/-- `Tool.parameters_model` (tools.py lines 25-35): resolve the type hint of
the `parameters` parameter; raise `TypeError` when there is none.  Note this
is a property evaluated at access time, not at construction time. -/
def Tool.parameters_model {Ctx Params Ret : Type} (t : Tool Ctx Params Ret) :
    Except PyError (PydModel Params) :=
  match t.fn.paramsHint with
  | some p => .ok p
  | none => .error (.typeError invalidSignatureMessage)

/-- `Tool.as_llm_tool` (tools.py lines 37-38): build the advertisement; it
accesses `parameters_model` and therefore fails the same way when the
handler has no `parameters` hint. -/
def Tool.as_llm_tool {Ctx Params Ret : Type} (t : Tool Ctx Params Ret) :
    Except PyError (LLMTool (PydModel Params)) :=
  match t.parameters_model with
  | .ok pm => .ok { name := t.name, description := t.description, parameters := pm }
  | .error e => .error e

/-- `Tool.__call__` (tools.py lines 40-41): it forwards `context` and
`parameters` to the handler and returns whatever the handler returns - a
raised handler exception propagates unchanged, nothing is wrapped. -/
def Tool.call {Ctx Params Ret : Type} (t : Tool Ctx Params Ret)
    (context : Ctx) (parameters : Params) : Except PyError Ret :=
  t.fn.run context parameters

/-!
## The PatchedAgent (src/examples/patched_agent_example.py)

The aikernel `Conversation` is embedded as a list of turns.  Its append
operations are modelled from the spec (section 4.3): `add_user_message` and
`add_assistant_message` append the given message; `set_system_message`
replaces the system turn; `session()` is the scoped-mutation guarantee - on
an exception escaping the scope, every append made inside it is undone.
The model collaborators `llm_structured` and `llm_tool_call` (aikernel) are
oracles passed as function parameters.
-/

/-- Roles of conversation turns. -/
inductive Role where
  | system
  | user
  | assistant
deriving DecidableEq

/-- One conversation turn: a role and its content parts
(`parts=[LLMMessagePart(content=...)]` becomes the list of content
strings). -/
structure Msg where
  role : Role
  parts : List String
deriving DecidableEq

/-- `frizz._internal.types.response.AgentMessage`.  Modelled from the spec:
the module is not under src/; the spec Model Decision and the use sites
(`agent_message.text`, `agent_message.chosen_tool_name`) give its fields. -/
structure AgentMessage where
  text : String
  chosen_tool_name : Option String

/-- `frizz._internal.types.response.StepResult`.  Modelled from the spec:
the module is not under src/; the use sites give its fields
(`assistant_message`, `tool_message`). -/
structure StepResult where
  assistant_message : Msg
  tool_message : Option Msg
deriving DecidableEq

/-- Insertion into a Python dict built by a comprehension: an existing key
has its value replaced in place, a new key is appended. -/
def dictInsert {α : Type} (d : List (String × α)) (k : String) (v : α) :
    List (String × α) :=
  if d.any (fun p => p.1 == k) then
    d.map (fun p => if p.1 == k then (k, v) else p)
  else
    d ++ [(k, v)]

/-- Python `dict.get`: the value stored under `k`, if any. -/
def dictGet {α : Type} : List (String × α) → String → Option α
  | [], _ => none
  | p :: ps, k => if p.1 == k then some p.2 else dictGet ps k

/-- `PatchedAgent.tools_by_name` (patched_agent_example.py lines 54-57): the
dict comprehension over the tool list - a later tool with the same name
silently replaces an earlier one. -/
def tools_by_name {Ctx Params Ret : Type} (tools : List (Tool Ctx Params Ret)) :
    List (String × Tool Ctx Params Ret) :=
  tools.foldl (fun d t => dictInsert d t.name t) []

/-- The `PatchedAgent` state: the tool list, the context and the
conversation. -/
structure PatchedAgent (Ctx Params Ret : Type) where
  tools : List (Tool Ctx Params Ret)
  context : Ctx
  conversation : List Msg

/-- `PatchedAgent.__init__` (patched_agent_example.py lines 29-47) for the
case `conversation_dump=None`: store the tools and context unchecked, start
from an empty conversation and set the optional system message.  No
duplicate-name check of any kind happens. -/
def PatchedAgent.init {Ctx Params Ret : Type} (tools : List (Tool Ctx Params Ret))
    (context : Ctx) (system_message : Option Msg) :
    Except PyError (PatchedAgent Ctx Params Ret) :=
  .ok
    { tools, context,
      conversation :=
        match system_message with
        | some m => [m]
        | none => [] }

/-- The tool invocation inside `PatchedAgent.step`
(patched_agent_example.py lines 96-98):
`chosen_tool(context=..., parameters=..., conversation=...)`.
`Tool.__call__` (tools.py line 40) declares only the keyword parameters
`context` and `parameters`, so Python rejects the extra `conversation`
keyword with a `TypeError` before the underlying handler is entered. -/
def Tool.callFromStep {Ctx Params Ret : Type} (_t : Tool Ctx Params Ret)
    (_context : Ctx) (_parameters : Params) (_conversation : List Msg) :
    Except PyError Ret :=
  .error (.typeError "__call__() got an unexpected keyword argument conversation")

/-- The body of the `with self.conversation.session():` block of
`PatchedAgent.step` (patched_agent_example.py lines 64-107), returning the
conversation as mutated so far together with the step result.  Note line 74
of the source: the message appended via `add_assistant_message` is
constructed as an `LLMSystemMessage`, so the appended turn carries the
system role. -/
def PatchedAgent.stepBody {Ctx Params Ret : Type} (agent : PatchedAgent Ctx Params Ret)
    (user_message : Msg)
    (llm_structured : List Msg → Except PyError AgentMessage)
    (llm_tool_call : List Msg → List (LLMTool (PydModel Params)) →
      Except PyError LLMRequiredToolResponse) :
    Except PyError (List Msg × StepResult) :=
  let conv1 := agent.conversation ++ [user_message]
  match llm_structured conv1 with
  | .error e => .error e
  | .ok agent_message =>
    let assistant_message : Msg := { role := .system, parts := [agent_message.text] }
    let conv2 := conv1 ++ [assistant_message]
    match agent_message.chosen_tool_name with
    | none => .ok (conv2, { assistant_message, tool_message := none })
    | some toolName =>
      match dictGet (tools_by_name agent.tools) toolName with
      | none => .error (.frizzError ("Tool " ++ toolName ++ " not found"))
      | some chosen_tool =>
        let paramsAttempt : Except PyError Params :=
          match chosen_tool.as_llm_tool with
          | .error e => .error e
          | .ok llmtool =>
            match llm_tool_call conv2 [llmtool] with
            | .error e => .error e
            | .ok parameters_response =>
              match chosen_tool.parameters_model with
              | .error e => .error e
              | .ok pm => pm.model_validate parameters_response.tool_call.arguments
        match paramsAttempt with
        | .error e => .error (.frizzError ("Error with tool parameters: " ++ e.str))
        | .ok parameters =>
          match chosen_tool.callFromStep agent.context parameters conv2 with
          | .error e => .error (.frizzError ("Error calling tool: " ++ e.str))
          | .ok _result => .ok (conv2, { assistant_message, tool_message := none })

/-- `PatchedAgent.step` (patched_agent_example.py lines 59-107): run the
session body; on success the appends stand, on a raised exception the
session scope rolls every append back (scoped-mutation guarantee, modelled
from the spec, section 4.3) and the exception propagates.  The result is
the conversation after the step together with the step outcome. -/
def PatchedAgent.step {Ctx Params Ret : Type} (agent : PatchedAgent Ctx Params Ret)
    (user_message : Msg)
    (llm_structured : List Msg → Except PyError AgentMessage)
    (llm_tool_call : List Msg → List (LLMTool (PydModel Params)) →
      Except PyError LLMRequiredToolResponse) :
    List Msg × Except PyError StepResult :=
  match agent.stepBody user_message llm_structured llm_tool_call with
  | .ok (conv, result) => (conv, .ok result)
  | .error e => (agent.conversation, .error e)

/-!
## Concrete fixtures

Small concrete instances used by counterexamples and witnesses.  The tools
follow the echo tool of patched_agent_example.py (lines 111-134) and the
calculator of the examples; the oracles return fixed collaborator answers.
-/

/-- The decoded form of `mockArgumentsString`. -/
def mockArgsJson : Json :=
  .obj [("operation", .str "multiply"), ("a", .num 125), ("b", .num 37)]

/-- The decision built by `patched_llm_tool_call` out of the fabricated
mock response for a given first tool. -/
def mockToolCallDecision {P : Type} (t : LLMTool P) : LLMResponseToolCall :=
  { id := "mock-tool-call", tool_name := t.name, arguments := mockArgsJson }

/-- A pydantic model whose validation accepts every decoded value. -/
def echoPyd : PydModel Json :=
  { name := "EchoParams", model_validate := fun j => .ok j }

/-- The echo handler: declares a `parameters` hint and returns normally. -/
def echoFn : IToolFn Unit Json Nat :=
  { name := "echo", doc := some "Echo back the input message.",
    paramsHint := some echoPyd, run := fun _ _ => .ok 7 }

/-- The echo tool. -/
def echoTool : Tool Unit Json Nat := ⟨echoFn⟩

/-- A second handler with the same name `echo` as `echoFn`. -/
def echoFn2 : IToolFn Unit Json Nat :=
  { name := "echo", doc := some "A second tool that reuses the name echo.",
    paramsHint := some echoPyd, run := fun _ _ => .ok 8 }

/-- A second tool named `echo`. -/
def echoTool2 : Tool Unit Json Nat := ⟨echoFn2⟩

/-- A handler that always raises. -/
def boomFn : IToolFn Unit Json Nat :=
  { name := "boom", doc := none,
    paramsHint := some echoPyd, run := fun _ _ => .error (.other "boom") }

/-- A tool whose handler always raises. -/
def boomTool : Tool Unit Json Nat := ⟨boomFn⟩

/-- A handler with no resolvable `parameters` type hint. -/
def noHintFn : IToolFn Unit Json Nat :=
  { name := "nohint", doc := none, paramsHint := none, run := fun _ _ => .ok 0 }

/-- A concrete user message. -/
def userMsg : Msg := { role := .user, parts := ["Hello"] }

/-- An `llm_structured` oracle whose decision selects the given tool name. -/
def selectOracle (toolName : String) : List Msg → Except PyError AgentMessage :=
  fun _ => .ok { text := "On it.", chosen_tool_name := some toolName }

/-- An `llm_tool_call` oracle returning fixed, well-formed arguments. -/
def argsOracle : List Msg → List (LLMTool (PydModel Json)) →
    Except PyError LLMRequiredToolResponse :=
  fun _ _ =>
    .ok { tool_call := { id := "call-1", tool_name := "echo", arguments := .obj [] },
          usage := { input_tokens := 1, output_tokens := 1 } }

/-- A calculator advertisement for the `patched_llm_tool_call` fixtures. -/
def calcLLMTool : LLMTool Unit :=
  { name := "calculator", description := "Perform basic arithmetic operations.",
    parameters := () }

/-!
## Helper lemmas
-/

/-- The fixed mock argument string decodes to `mockArgsJson`. -/
theorem loads_mock : Json.loads mockArgumentsString = some mockArgsJson := by rfl

/-- Lookup after replacing every entry keyed `k` by `(k, v)`: when the key
was present, looking up `k` now yields `v`; other keys are untouched. -/
theorem dictGet_map_replace {α : Type} (k k' : String) (v : α)
    (d : List (String × α)) :
    dictGet (d.map (fun p => if p.1 == k then (k, v) else p)) k' =
      if k == k' then (if d.any (fun p => p.1 == k) then some v else none)
      else dictGet d k' := by
  induction d with
  | nil => by_cases h : k = k' <;> simp [dictGet, h]
  | cons p ps ih =>
    by_cases hp : p.1 = k
    · have hpb : (p.1 == k) = true := beq_iff_eq.mpr hp
      by_cases hk : k = k'
      · have hkb : (k == k') = true := beq_iff_eq.mpr hk
        simp [dictGet, hpb, hkb]
      · have hkb : (k == k') = false := beq_eq_false_iff_ne.mpr hk
        have hpq : (p.1 == k') = false :=
          beq_eq_false_iff_ne.mpr (fun h => hk (hp.symm.trans h))
        simp [dictGet, hp, hpb, hk, hkb, hpq] at ih ⊢
        exact ih
    · have hpb : (p.1 == k) = false := beq_eq_false_iff_ne.mpr hp
      by_cases hq : p.1 = k'
      · have hqb : (p.1 == k') = true := beq_iff_eq.mpr hq
        have hk : ¬ k = k' := fun h => hp (hq.trans h.symm)
        have hkb : (k == k') = false := beq_eq_false_iff_ne.mpr hk
        simp [dictGet, hpb, hqb, hkb]
      · have hqb : (p.1 == k') = false := beq_eq_false_iff_ne.mpr hq
        simp [dictGet, hp, hpb, hq, hqb] at ih ⊢
        rw [hpb]
        exact ih

/-- Folding the comprehension over an extended tool list performs one more
dict insertion. -/
theorem tools_by_name_append {Ctx Params Ret : Type}
    (tools : List (Tool Ctx Params Ret)) (t : Tool Ctx Params Ret) :
    tools_by_name (tools ++ [t]) = dictInsert (tools_by_name tools) t.name t := by
  simp [tools_by_name, List.foldl_append]

/-- A Python dict insertion: looking up the inserted key yields the new
value, every other key is unchanged. -/
theorem dictGet_dictInsert {α : Type} (d : List (String × α)) (k : String)
    (v : α) (k' : String) :
    dictGet (dictInsert d k v) k' = if k == k' then some v else dictGet d k' := by
  unfold dictInsert
  by_cases hmem : d.any (fun p => p.1 == k)
  · rw [if_pos hmem, dictGet_map_replace, hmem]
    simp
  · rw [if_neg hmem]
    rw [Bool.not_eq_true] at hmem
    induction d with
    | nil => by_cases h : k = k' <;> simp [dictGet, h]
    | cons p ps ih =>
      rw [List.any_cons, Bool.or_eq_false_iff] at hmem
      by_cases hq : p.1 = k'
      · have hk : ¬ k = k' := fun h => by
          rw [← h] at hq
          rw [beq_iff_eq.mpr hq] at hmem
          exact Bool.true_eq_false.mp hmem.1
        have hqb : (p.1 == k') = true := beq_iff_eq.mpr hq
        have hkb : (k == k') = false := beq_eq_false_iff_ne.mpr hk
        simp [dictGet, hqb, hkb]
      · have hqb : (p.1 == k') = false := beq_eq_false_iff_ne.mpr hq
        have := ih hmem.2
        simp only [List.cons_append, dictGet, hqb, Bool.false_eq_true, if_false]
        exact this

/-!
## The claims
-/

/-- C1 (code_bug): the claim says a step whose handler raises returns
successfully, with the failure recorded as a tool-result error turn and
`tool_result` = error.  The code instead re-raises handler failures as
`FrizzError` (patched_agent_example.py lines 95-100), never records any
tool-result turn (`tool_message` is always `None`), and the invocation
itself passes a `conversation` keyword that `Tool.__call__` does not
accept, so the step with the always-raising `boomTool` fails - the session
rollback leaves the conversation without any of the appended turns. -/
theorem c1_step_raises_on_handler_failure :
    PatchedAgent.step
        ({ tools := [boomTool], context := (), conversation := [] } :
          PatchedAgent Unit Json Nat)
        userMsg (selectOracle "boom") argsOracle =
      ([], .error (.frizzError
        "Error calling tool: __call__() got an unexpected keyword argument conversation")) := by
  rfl

/-- C2 (code_bug): the claim says a step selecting a registered tool with
valid arguments appends assistant, tool-invocation and tool-result turns
and returns the handler output as `tool_result`.  The code never appends a
tool-invocation or tool-result turn and hard-codes `tool_message = None`
(patched_agent_example.py lines 102-105); moreover the invocation passes a
`conversation` keyword that `Tool.__call__` does not accept, so even the
happy path - registered tool, validating arguments, succeeding handler -
fails with `FrizzError` and rolls the conversation back. -/
theorem c2_step_never_returns_tool_result :
    PatchedAgent.step
        ({ tools := [echoTool], context := (), conversation := [] } :
          PatchedAgent Unit Json Nat)
        userMsg (selectOracle "echo") argsOracle =
      ([], .error (.frizzError
        "Error calling tool: __call__() got an unexpected keyword argument conversation")) := by
  rfl

/-- C3 counterexample: a step selecting the unregistered name `ghost` does
not leave the conversation with only the user turn - the session rollback
removes the user turn as well - and the error raised is the generic
`FrizzError`, not an UnknownToolSelectedError. -/
theorem c3_counterexample :
    (PatchedAgent.step
        ({ tools := [], context := (), conversation := [] } :
          PatchedAgent Unit Json Nat)
        userMsg (selectOracle "ghost") argsOracle).1 ≠ [userMsg]
  ∧ PatchedAgent.step
        ({ tools := [], context := (), conversation := [] } :
          PatchedAgent Unit Json Nat)
        userMsg (selectOracle "ghost") argsOracle =
      ([], .error (.frizzError "Tool ghost not found")) :=
  ⟨by decide, rfl⟩

/-- C3 (amended): a step whose decision names a tool that is not in
`tools_by_name` fails with `FrizzError` (message `Tool <name> not found`),
and the session rollback leaves the conversation exactly as it was before
the step - no new turns persist, not even the user message. -/
theorem c3_unknown_tool_rolls_back_everything {Ctx Params Ret : Type}
    (agent : PatchedAgent Ctx Params Ret) (user_message : Msg)
    (ls : List Msg → Except PyError AgentMessage)
    (ltc : List Msg → List (LLMTool (PydModel Params)) →
      Except PyError LLMRequiredToolResponse)
    (am : AgentMessage) (nm : String)
    (hdecision : ls (agent.conversation ++ [user_message]) = .ok am)
    (hname : am.chosen_tool_name = some nm)
    (hmiss : dictGet (tools_by_name agent.tools) nm = none) :
    PatchedAgent.step agent user_message ls ltc =
      (agent.conversation, .error (.frizzError ("Tool " ++ nm ++ " not found"))) := by
  simp [PatchedAgent.step, PatchedAgent.stepBody, hdecision, hname, hmiss]

/-- C3 witness: the amended theorem applied at a concrete agent with no
tools and a decision selecting `ghost`. -/
theorem c3_unknown_tool_rolls_back_everything_witness :
    PatchedAgent.step
        ({ tools := [], context := (), conversation := [] } :
          PatchedAgent Unit Json Nat)
        userMsg (selectOracle "ghost") argsOracle =
      ([], .error (.frizzError ("Tool " ++ "ghost" ++ " not found"))) :=
  c3_unknown_tool_rolls_back_everything
    { tools := [], context := (), conversation := [] }
    userMsg (selectOracle "ghost") argsOracle
    { text := "On it.", chosen_tool_name := some "ghost" } "ghost" rfl rfl rfl

/-- C4 counterexample: when the router raises `ServiceUnavailableError`,
the call does not surface `ModelUnavailableError` - the inner
except-Exception fallback substitutes the mock response and the call
returns a successful decision for the first tool. -/
theorem c4_counterexample :
    patched_llm_tool_call ([] : List (LLMMessage Unit)) [calcLLMTool] .required
        (fun _ _ _ => .error .serviceUnavailable) =
      .ok (.required
        { tool_call :=
            { id := "mock-tool-call", tool_name := "calculator", arguments := mockArgsJson },
          usage := { input_tokens := 20, output_tokens := 10 } }) := by
  rfl

/-- C4 (amended): the surviving error mapping of `patched_llm_tool_call`.
A response with no choices fails with `NoResponseError` (not
`ToolCallError`); a response without tool calls under required choice, a
first tool call naming no supplied tool, and undecodable JSON arguments
each fail with `ToolCallError`; but every exception the router raises -
provider-unavailable and rate-limit included - is swallowed by the
fallback, so with a nonempty tools list the call succeeds instead of
surfacing `ModelUnavailableError` or `RateLimitExceededError`. -/
theorem c4_collaborator_error_mapping :
    (∀ (P R : Type) (msgs : List (LLMMessage R)) (tools : List (LLMTool P))
        (tc : ToolChoice) (u : ModelResponseUsage),
        patched_llm_tool_call msgs tools tc
          (fun _ _ _ => .ok { choices := [], usage := u }) = .error .noResponseError)
  ∧ (∀ (P R : Type) (msgs : List (LLMMessage R)) (tools : List (LLMTool P))
        (u : ModelResponseUsage) (content : Option String),
        patched_llm_tool_call msgs tools .required
          (fun _ _ _ => .ok
            { choices := [{ message := { content, tool_calls := some [] } }], usage := u })
          = .error .toolCallError)
  ∧ (∀ (P R : Type) (msgs : List (LLMMessage R)) (tools : List (LLMTool P))
        (tc : ToolChoice) (u : ModelResponseUsage) (content : Option String)
        (c0 : ModelResponseChoiceToolCall) (rest : List ModelResponseChoiceToolCall),
        tools.find? (fun tool => tool.name == c0.function.name) = none →
        patched_llm_tool_call msgs tools tc
          (fun _ _ _ => .ok
            { choices := [{ message := { content, tool_calls := some (c0 :: rest) } }],
              usage := u })
          = .error .toolCallError)
  ∧ (∀ (P R : Type) (msgs : List (LLMMessage R)) (tools : List (LLMTool P))
        (tc : ToolChoice) (u : ModelResponseUsage) (content : Option String)
        (c0 : ModelResponseChoiceToolCall) (rest : List ModelResponseChoiceToolCall)
        (chosen : LLMTool P),
        tools.find? (fun tool => tool.name == c0.function.name) = some chosen →
        Json.loads c0.function.arguments = none →
        patched_llm_tool_call msgs tools tc
          (fun _ _ _ => .ok
            { choices := [{ message := { content, tool_calls := some (c0 :: rest) } }],
              usage := u })
          = .error .toolCallError)
  ∧ (∀ (P R : Type) (msgs : List (LLMMessage R)) (t : LLMTool P) (ts : List (LLMTool P))
        (tc : ToolChoice) (e : PyError),
        (patched_llm_tool_call msgs (t :: ts) tc (fun _ _ _ => .error e)).isOk = true) := by
  refine ⟨?_, ?_, ?_, ?_, ?_⟩
  · intro P R msgs tools tc u
    rfl
  · intro P R msgs tools u content
    rfl
  · intro P R msgs tools tc u content c0 rest h
    simp [patched_llm_tool_call, processResponse, h]
  · intro P R msgs tools tc u content c0 rest chosen h hjson
    simp [patched_llm_tool_call, processResponse, h, hjson]
  · intro P R msgs t ts tc e
    cases tc <;>
      simp [patched_llm_tool_call, mockResponse, processResponse, loads_mock,
        Except.isOk, Except.toBool]

/-- C4 witness: the amended mapping at concrete inputs - an empty-choices
response, a required response without tool calls, an unknown tool name,
undecodable arguments, and a rate-limited router call that nevertheless
succeeds through the fallback. -/
theorem c4_collaborator_error_mapping_witness :
    patched_llm_tool_call ([] : List (LLMMessage Unit)) ([] : List (LLMTool Unit)) .auto
        (fun _ _ _ => .ok { choices := [], usage := { prompt_tokens := 0, completion_tokens := 0 } })
      = .error .noResponseError
  ∧ patched_llm_tool_call ([] : List (LLMMessage Unit)) [calcLLMTool] .required
        (fun _ _ _ => .ok
          { choices := [{ message := { content := none, tool_calls := some [] } }],
            usage := { prompt_tokens := 0, completion_tokens := 0 } })
      = .error .toolCallError
  ∧ patched_llm_tool_call ([] : List (LLMMessage Unit)) [calcLLMTool] .auto
        (fun _ _ _ => .ok
          { choices := [{ message := { content := none, tool_calls := (some
              [{ id := "x", function := { name := "ghost", arguments := "\x7b\x7d" } }]) } }],
            usage := { prompt_tokens := 0, completion_tokens := 0 } })
      = .error .toolCallError
  ∧ patched_llm_tool_call ([] : List (LLMMessage Unit)) [calcLLMTool] .auto
        (fun _ _ _ => .ok
          { choices := [{ message := { content := none, tool_calls := (some
              [{ id := "x", function := { name := "calculator", arguments := "not json" } }]) } }],
            usage := { prompt_tokens := 0, completion_tokens := 0 } })
      = .error .toolCallError
  ∧ (patched_llm_tool_call ([] : List (LLMMessage Unit)) [calcLLMTool] .required
        (fun _ _ _ => .error .rateLimitError)).isOk = true :=
  ⟨c4_collaborator_error_mapping.1 Unit Unit [] [] .auto _,
   c4_collaborator_error_mapping.2.1 Unit Unit [] [calcLLMTool] _ none,
   c4_collaborator_error_mapping.2.2.1 Unit Unit [] [calcLLMTool] .auto _ none _ [] rfl,
   c4_collaborator_error_mapping.2.2.2.1 Unit Unit [] [calcLLMTool] .auto _ none _ []
     calcLLMTool rfl rfl,
   c4_collaborator_error_mapping.2.2.2.2 Unit Unit [] calcLLMTool [] .required .rateLimitError⟩

/-- C5 counterexample: constructing the agent with two tools both named
`echo` succeeds - no DuplicateToolNameError is raised - and `tools_by_name`
silently maps `echo` to the second tool. -/
theorem c5_counterexample :
    (PatchedAgent.init [echoTool, echoTool2] () none).isOk = true
  ∧ dictGet (tools_by_name [echoTool, echoTool2]) "echo" = some echoTool2 :=
  ⟨rfl, rfl⟩

/-- C5 (amended): agent construction never fails, whatever the tool names,
and the `tools_by_name` dict comprehension resolves each name to the LAST
tool carrying it in registration order - a later duplicate silently shadows
an earlier one instead of failing. -/
theorem c5_duplicate_names_shadow_silently :
    (∀ (Ctx Params Ret : Type) (tools : List (Tool Ctx Params Ret)) (context : Ctx)
        (sm : Option Msg), (PatchedAgent.init tools context sm).isOk = true)
  ∧ (∀ (Ctx Params Ret : Type) (tools : List (Tool Ctx Params Ret))
        (t : Tool Ctx Params Ret) (k : String),
        dictGet (tools_by_name (tools ++ [t])) k =
          if t.name == k then some t else dictGet (tools_by_name tools) k) := by
  constructor
  · intro Ctx Params Ret tools context sm
    rfl
  · intro Ctx Params Ret tools t k
    rw [tools_by_name_append, dictGet_dictInsert]

/-- C6 counterexample: a handler with no resolvable `parameters` hint is
accepted by `Tool.__init__` - construction succeeds, no
InvalidToolSignatureError - and the failure only appears as a `TypeError`
when `parameters_model` is accessed later. -/
theorem c6_counterexample :
    (Tool.init noHintFn).isOk = true
  ∧ (Tool.mk noHintFn).parameters_model = .error (.typeError invalidSignatureMessage) :=
  ⟨rfl, rfl⟩

/-- C6 (amended): construction always succeeds, even for a handler with no
resolvable `parameters` type; the check is deferred - accessing
`parameters_model` (or `as_llm_tool`, which uses it) on such a tool raises
`TypeError`, not an InvalidToolSignatureError at construction time. -/
theorem c6_signature_check_is_deferred {Ctx Params Ret : Type}
    (fn : IToolFn Ctx Params Ret) (h : fn.paramsHint = none) :
    Tool.init fn = .ok ⟨fn⟩
  ∧ (Tool.mk fn).parameters_model = .error (.typeError invalidSignatureMessage)
  ∧ (Tool.mk fn).as_llm_tool = .error (.typeError invalidSignatureMessage) := by
  refine ⟨rfl, ?_, ?_⟩ <;> simp [Tool.parameters_model, Tool.as_llm_tool, h]

/-- C6 witness: the amended theorem at the concrete hint-free handler. -/
theorem c6_signature_check_is_deferred_witness :
    Tool.init noHintFn = .ok ⟨noHintFn⟩
  ∧ (Tool.mk noHintFn).parameters_model = .error (.typeError invalidSignatureMessage)
  ∧ (Tool.mk noHintFn).as_llm_tool = .error (.typeError invalidSignatureMessage) :=
  c6_signature_check_is_deferred noHintFn rfl

/-- C7 counterexample: invoking the tool whose handler raises yields the
bare handler exception, which is not a HandlerExecutionError - nothing is
wrapped. -/
theorem c7_counterexample :
    Tool.call boomTool () (Json.obj []) = .error (.other "boom")
  ∧ PyError.isHandlerExecutionError (.other "boom") = false :=
  ⟨rfl, rfl⟩

/-- C7 (amended): `Tool.__call__` forwards to the handler and propagates a
raised handler exception unchanged - the exception reaches the caller bare,
never wrapped in a HandlerExecutionError. -/
theorem c7_handler_exception_propagates_bare {Ctx Params Ret : Type}
    (fn : IToolFn Ctx Params Ret) (context : Ctx) (parameters : Params) (e : PyError)
    (h : fn.run context parameters = .error e) :
    Tool.call ⟨fn⟩ context parameters = .error e := by
  simpa [Tool.call] using h

/-- C7 witness: the amended theorem at the concrete always-raising
handler. -/
theorem c7_handler_exception_propagates_bare_witness :
    Tool.call ⟨boomFn⟩ () (Json.obj []) = .error (PyError.other "boom") :=
  c7_handler_exception_propagates_bare boomFn () (Json.obj []) (.other "boom") rfl

/-- C8 (confirmed): the rendering loop maps a tool message anywhere in the
history to its paired tool-call record immediately followed by its
tool-response record, leaving the surrounding records in order; rendering
is a pure projection - the message list itself is a value and is not
modified. -/
theorem c8_tool_turn_renders_adjacent_pair (R : Type) (pre post : List (LLMMessage R))
    (c r : R) :
    renderMessages (pre ++ LLMMessage.tool c r :: post) =
      renderMessages pre ++ c :: r :: renderMessages post := by
  induction pre with
  | nil => rfl
  | cons m ms ih => cases m <;> simp [renderMessages, ih]

/-- C9 (confirmed): whatever exception `acomplete` raises - provider
unavailable and rate limit included - it is not propagated: the fabricated
mock response is substituted, and the returned decision always selects the
first supplied tool with id `mock-tool-call` and the fixed decoded
arguments operation=multiply, a=125, b=37. -/
theorem c9_acomplete_exceptions_replaced_by_mock (P R : Type)
    (msgs : List (LLMMessage R)) (t : LLMTool P) (ts : List (LLMTool P))
    (tc : ToolChoice) (e : PyError) :
    patched_llm_tool_call msgs (t :: ts) tc (fun _ _ _ => .error e) =
      (match tc with
       | .required => .ok (.required
           { tool_call := mockToolCallDecision t,
             usage := { input_tokens := 20, output_tokens := 10 } })
       | .auto => .ok (.auto
           { tool_call := some (mockToolCallDecision t), text := none,
             usage := { input_tokens := 20, output_tokens := 10 } })) := by
  cases tc <;>
    simp [patched_llm_tool_call, mockResponse, processResponse, mockToolCallDecision,
      loads_mock]

/-- C10 (confirmed): only the first tool call of the model response is
consulted - replacing every later tool call changes nothing about the
returned decision. -/
theorem c10_only_first_tool_call_used (P R : Type) (msgs : List (LLMMessage R))
    (tools : List (LLMTool P)) (tc : ToolChoice) (content : Option String)
    (c0 : ModelResponseChoiceToolCall) (rest : List ModelResponseChoiceToolCall)
    (extra : List ModelResponseChoice) (u : ModelResponseUsage) :
    patched_llm_tool_call msgs tools tc
        (fun _ _ _ => .ok
          { choices := { message := { content, tool_calls := some (c0 :: rest) } } :: extra,
            usage := u }) =
      patched_llm_tool_call msgs tools tc
        (fun _ _ _ => .ok
          { choices := { message := { content, tool_calls := some [c0] } } :: extra,
            usage := u }) := by
  rfl
